import Mathlib

/-!
Verification development for the igloo-ios background playback session
manager.  The definitions below are shallow embeddings of the code in
`services/audio/soundscapes.ts`, `stores/audioStore.ts`,
`services/audio/AudioService.ts`, `BackgroundAudioModule.swift` and
`services/igloo/IglooService.ts` as recorded in the repository.
-/

/- ## Track Registry (services/audio/soundscapes.ts) -/

/-- Embeds the SoundscapeConfig record type: id, display name, description,
bundled filename and availability flag. -/
structure SoundscapeConfig where
  id : String
  name : String
  description : String
  filename : String
  available : Bool
deriving DecidableEq, Repr

/-- Embeds SOUNDSCAPE_REGISTRY, in registration order. -/
def SOUNDSCAPE_REGISTRY : List SoundscapeConfig :=
  [ ⟨"ocean-waves", "Ocean Waves", "Gentle waves lapping on the shore", "ocean-waves", true⟩,
    ⟨"rain", "Rain", "Soft rainfall on leaves", "rain", false⟩,
    ⟨"forest", "Forest", "Birds and rustling leaves", "forest", false⟩,
    ⟨"white-noise", "White Noise", "Steady ambient noise", "whitenoise", false⟩,
    ⟨"campfire", "Campfire", "Crackling fire sounds", "campfire", false⟩ ]

/-- Embeds DEFAULT_SOUNDSCAPE_ID. -/
def DEFAULT_SOUNDSCAPE_ID : String := "ocean-waves"

/-- Embeds DEFAULT_VOLUME. -/
def DEFAULT_VOLUME : ℚ := 3 / 10

/-- Embeds getSoundscapeById: a plain lookup of the registry object by id.
An absent id yields no descriptor (the JS lookup yields undefined). -/
def getSoundscapeById (id : String) : Option SoundscapeConfig :=
  SOUNDSCAPE_REGISTRY.find? (fun c => c.id == id)

/-- Embeds getSoundscapeFilename as the filename field of the looked-up entry. -/
def getSoundscapeFilename (id : String) : Option String :=
  (getSoundscapeById id).map (fun c => c.filename)

/-- Embeds isSoundscapeAvailable: the availability flag of the looked-up entry. -/
def isSoundscapeAvailable (id : String) : Bool :=
  ((getSoundscapeById id).map (fun c => c.available)).getD false

/-- Embeds getAvailableSoundscapes. -/
def getAvailableSoundscapes : List SoundscapeConfig :=
  SOUNDSCAPE_REGISTRY.filter (fun c => c.available)

/- ## Audio preference store (stores/audioStore.ts) -/

/-- Embeds the volume clamp performed on every write, in both the store
(Math.max 0 (Math.min 1 volume)) and the Swift setVolume (max 0 (min 1 volume)). -/
def clampVolume (v : ℚ) : ℚ := max 0 (min 1 v)

/-- Embeds the persisted audio preference state of the zustand store. -/
structure AudioStoreState where
  volume : ℚ
  soundscapeId : String
deriving DecidableEq, Repr

/-- Embeds the store action setVolume: clamps and stores, touching nothing else. -/
def storeSetVolume (s : AudioStoreState) (v : ℚ) : AudioStoreState :=
  { s with volume := clampVolume v }

/-- Embeds the store action setSoundscape: stores the id without validation. -/
def storeSetSoundscape (s : AudioStoreState) (id : String) : AudioStoreState :=
  { s with soundscapeId := id }

/- ## Native Swift module (BackgroundAudioModule.swift)

The Swift module owns the AVAudioPlayer handle.  Its operations on the
platform player are recorded as NativeOp values; startPlayback failures
carry the NSError codes of the source (1 = audio file not found,
2 = play call reported failure). -/

/-- Platform-level operations the Swift module performs on the audio
session and the AVAudioPlayer handle. -/
inductive NativeOp where
  | sessionActivate
  | playerCreate
  | playerPlay
  | playerStop
deriving DecidableEq, Repr

/-- State of the Swift module: the current soundscape filename and the
playing flag that backs the isPlaying query. -/
structure ModSt where
  currentSoundscape : String
  playing : Bool
deriving DecidableEq, Repr

/-- Result of a Swift module method: the new module state, the platform
operations performed, and the NSError code when the method threw. -/
structure ModOut where
  st : ModSt
  ops : List NativeOp
  err : Option Nat
deriving DecidableEq, Repr

/-- Embeds the set of filenames bundled with the app: only ocean-waves.m4a
is in Copy Bundle Resources (the rain, forest, whitenoise and campfire
files are not yet bundled). -/
def bundledFiles : List String := ["ocean-waves"]

/-- Embeds startPlayback: configure and activate the session, resolve the
current soundscape file in the bundle (throwing code 1 when absent),
create the looping player, call play, and set the playing flag only when
the play call reports success (throwing code 2 otherwise).  The playOk
argument stands for the result the platform play call returns. -/
def startPlayback (playOk : Bool) (st : ModSt) : ModOut :=
  if bundledFiles.contains st.currentSoundscape then
    if playOk then
      ⟨{ st with playing := true }, [.sessionActivate, .playerCreate, .playerPlay], none⟩
    else
      ⟨st, [.sessionActivate, .playerCreate, .playerPlay], some 2⟩
  else
    ⟨st, [.sessionActivate], some 1⟩

/-- Embeds stopPlayback: tear down the handle and clear the playing flag. -/
def stopPlayback (st : ModSt) : ModSt × List NativeOp :=
  ({ st with playing := false }, [.playerStop])

/-- Embeds the AsyncFunction setSoundscape: record the new filename, and
when currently playing stop then restart playback; otherwise only the
stored preference changes and the method returns success. -/
def nativeSetSoundscape (filename : String) (playOk : Bool) (st : ModSt) : ModOut :=
  let st1 := { st with currentSoundscape := filename }
  if st1.playing then
    let s2 := stopPlayback st1
    let o3 := startPlayback playOk s2.1
    ⟨o3.st, s2.2 ++ o3.ops, o3.err⟩
  else
    ⟨st1, [], none⟩

/-- Embeds the AsyncFunction setVolume of the Swift module: clamp the value
and apply it to the player when a player exists (optional chaining), then
return true.  The player is represented by its current volume. -/
def nativeSetVolume (v : ℚ) (player : Option ℚ) : Option ℚ × Bool :=
  (player.map (fun _ => clampVolume v), true)

/-- Event payload the Swift module sends to JS through
onPlaybackStateChanged. -/
structure EventMsg where
  isPlaying : Bool
  reason : String
deriving DecidableEq, Repr

/-- State of the Swift module for the interruption handler: the playing
flag and whether an AVAudioPlayer handle currently exists. -/
structure PlayerSt where
  playing : Bool
  hasPlayer : Bool
deriving DecidableEq, Repr

/-- Embeds the .began branch of handleInterruption: the module emits one
event with isPlaying false and reason interrupted, performs no platform
operation and leaves its own state unchanged. -/
def handleInterruptionBegan (st : PlayerSt) : PlayerSt × List NativeOp × List EventMsg :=
  (st, [], [⟨false, "interrupted"⟩])

/-- Embeds the .ended branch of handleInterruption: when the playing flag
is set the module reactivates the session and calls play on the existing
handle (resumed is false when no handle exists or the play call fails);
on success it emits a resumed event, on failure it clears the playing
flag and emits a resumeFailed event.  No new player is created. -/
def handleInterruptionEnded (playOk : Bool) (st : PlayerSt) : PlayerSt × List NativeOp × List EventMsg :=
  if st.playing then
    let ops := .sessionActivate :: (if st.hasPlayer then [NativeOp.playerPlay] else [])
    if st.hasPlayer && playOk then
      (st, ops, [⟨true, "resumed"⟩])
    else
      ({ st with playing := false }, ops, [⟨false, "resumeFailed"⟩])
  else
    (st, [], [])

/- ## AudioService (services/audio/AudioService.ts)

The JS service treats the native module as its Engine: each native-module
method invocation is recorded as an EngineCall.  The platform guard
(Platform.OS equal to ios, and the module reference being non-null) is
passed as two booleans. -/

/-- Native-module methods the AudioService invokes, in invocation order. -/
inductive EngineCall where
  | query
  | start
  | stop
  | vol
deriving DecidableEq, Repr

/-- Cached JS state of the AudioService (this.isPlaying) together with the
ground-truth playing flag of the native module. -/
structure AudioSt where
  jsPlaying : Bool
  nativePlaying : Bool
deriving DecidableEq, Repr

/-- Result of an AudioService operation: the new combined state, the
native-module calls issued, and whether the operation threw. -/
structure OpOut where
  st : AudioSt
  calls : List EngineCall
  threw : Bool
deriving DecidableEq, Repr

/-- Embeds AudioService.play: outside iOS or without the native module it
returns at once; otherwise it first queries native isPlaying and, when
that confirms playback, only re-syncs the cached flag and returns without
a start; when the query reports not playing, it issues the native play
call (nativeOk stands for that call resolving rather than rejecting) and
sets the cached flag on success. -/
def servicePlay (ios moduleOk nativeOk : Bool) (st : AudioSt) : OpOut :=
  if ios && moduleOk then
    if st.nativePlaying then
      ⟨{ st with jsPlaying := true }, [.query], false⟩
    else if nativeOk then
      ⟨⟨true, true⟩, [.query, .start], false⟩
    else
      ⟨st, [.query, .start], true⟩
  else
    ⟨st, [], false⟩

/-- Modelled from the spec: the body of AudioService.stop is elided in the
repository documents (only its signature appears), so it is modelled from
the spec sentence that stop is idempotent and tears down playback, under
the same platform guard the documented play uses: issue the native stop
and clear the cached flag; outside the guard it is a silent no-op. -/
def serviceStop (ios moduleOk : Bool) (st : AudioSt) : OpOut :=
  if ios && moduleOk then
    ⟨⟨false, false⟩, [.stop], false⟩
  else
    ⟨st, [], false⟩

/-- Modelled from the spec: the body of AudioService.setVolume is elided in
the repository documents (only its signature appears), so it is modelled
from the spec sentence that setVolume clamps and applies to the live
handle if present, under the same platform guard the documented play
uses: forward the value to the native setVolume, which clamps and applies
it to the player when one exists; outside the guard it is a silent no-op.
The player is represented by its volume. -/
def serviceSetVolume (ios moduleOk : Bool) (v : ℚ) (player : Option ℚ) :
    Option ℚ × List EngineCall :=
  if ios && moduleOk then
    ((nativeSetVolume v player).1, [.vol])
  else
    (player, [])

/-- Result of one health-check tick: the new combined state, the number of
onHealthCheckFailed callback invocations, and the native calls issued. -/
structure TickOut where
  st : AudioSt
  events : Nat
  calls : List EngineCall
deriving DecidableEq, Repr

/-- Embeds one tick of startHealthCheck: when the cached flag reports
playing, query native ground truth; when the query denies it, clear the
cached flag and invoke the onHealthCheckFailed callback once. -/
def healthCheckTick (st : AudioSt) : TickOut :=
  if st.jsPlaying then
    if st.nativePlaying then
      ⟨st, 0, [.query]⟩
    else
      ⟨{ st with jsPlaying := false }, 1, [.query]⟩
  else
    ⟨st, 0, []⟩

/- ## IglooService (services/igloo/IglooService.ts)

The signer service drives the AudioService: startSigner plays audio after
node creation, stopSigner stops audio unless keepAudio is set. -/

/-- Combined state of the signer service and the audio layer. -/
structure SignerSt where
  node : Bool
  audio : AudioSt
deriving DecidableEq, Repr

/-- Embeds stopSigner(options): clean up the node, then stop the audio
service unless options.keepAudio is set. -/
def iglooStopSigner (keepAudio ios moduleOk : Bool) (st : SignerSt) : SignerSt × List EngineCall :=
  let st1 : SignerSt := { st with node := false }
  if keepAudio then
    (st1, [])
  else
    let o := serviceStop ios moduleOk st1.audio
    ({ st1 with audio := o.st }, o.calls)

/-- Embeds startSigner: when a node is already running, restart by calling
stopSigner with keepAudio true; then create the node and call
audioService.play. -/
def iglooStartSigner (ios moduleOk nativeOk : Bool) (st : SignerSt) : SignerSt × List EngineCall :=
  let s1 := if st.node then iglooStopSigner true ios moduleOk st else (st, [])
  let st2 : SignerSt := { s1.1 with node := true }
  let o := servicePlay ios moduleOk nativeOk st2.audio
  ({ st2 with audio := o.st }, s1.2 ++ o.calls)

/-- Embeds the preserved-audio restart sequence: stopSigner with keepAudio
true, followed by a fresh startSigner.  Returns the intermediate state
after the stop step, the final state, and the full Engine-call trace. -/
def iglooRestart (ios moduleOk nativeOk : Bool) (st : SignerSt) :
    SignerSt × SignerSt × List EngineCall :=
  let s1 := iglooStopSigner true ios moduleOk st
  let s2 := iglooStartSigner ios moduleOk nativeOk s1.1
  (s1.1, s2.1, s1.2 ++ s2.2)

/- ## Interleaving model of two concurrent play calls

AudioService.play awaits the native isPlaying query and then, separately,
awaits the native play call, so another JS invocation of play can run
between those two awaits.  Each in-flight invocation is a two-step
program: step one reads the native playing flag, step two either finishes
without a start (flag was seen true) or issues the native start (which
sets the native flag on completion). -/

/-- Progress of one in-flight play invocation: not yet started, holding
the value its isPlaying query returned, or finished. -/
inductive PlayPhase where
  | ready
  | sawStatus (b : Bool)
  | finished
deriving DecidableEq, Repr

/-- Shared state of two concurrent play invocations: the native playing
flag and each caller, plus the Engine-call trace in issue order. -/
structure ConcSt where
  native : Bool
  p1 : PlayPhase
  p2 : PlayPhase
  trace : List EngineCall
deriving DecidableEq, Repr

/-- One step of a single play invocation against the shared native flag:
returns the new phase, the new native flag and the calls issued. -/
def playStep (ph : PlayPhase) (native : Bool) : PlayPhase × Bool × List EngineCall :=
  match ph with
  | .ready => (.sawStatus native, native, [.query])
  | .sawStatus true => (.finished, native, [])
  | .sawStatus false => (.finished, true, [.start])
  | .finished => (.finished, native, [])

/-- Scheduler step: pick caller one (true) or caller two (false) and run
its next step. -/
def concStep (pickFirst : Bool) (s : ConcSt) : ConcSt :=
  if pickFirst then
    let r := playStep s.p1 s.native
    { s with p1 := r.1, native := r.2.1, trace := s.trace ++ r.2.2 }
  else
    let r := playStep s.p2 s.native
    { s with p2 := r.1, native := r.2.1, trace := s.trace ++ r.2.2 }

/-- Runs a schedule, a list of caller picks, from a given shared state. -/
def runSched (sched : List Bool) (s : ConcSt) : ConcSt :=
  match sched with
  | [] => s
  | pick :: rest => runSched rest (concStep pick s)

/-- Initial shared state: nothing playing, both callers about to run. -/
def concInit : ConcSt := ⟨false, .ready, .ready, []⟩

/- ## Session Controller state machine -/

/-- Modelled from the spec: the SessionState enumeration of the Session
Controller (section 3 of the spec).  No Session Controller state machine
exists in the repository sources; the AudioService keeps only a cached
boolean. -/
inductive SessionState where
  | Stopped
  | Starting
  | Playing
  | Interrupted
  | Resuming
  | SwitchingTrack
  | Failed
deriving DecidableEq, Repr

/-- Modelled from the spec: the controller transition on onInterruptionBegan
(Playing to Interrupted; other states unchanged).  The repository has no
controller state machine, only the native event handler. -/
def ctrlOnInterruptionBegan : SessionState → SessionState
  | .Playing => .Interrupted
  | s => s

/-- Modelled from the spec: the controller transitions on
onInterruptionEnded, listing every state entered in order (Interrupted to
Resuming to Playing when resumed, Interrupted to Failed otherwise; other
states unchanged).  The repository has no controller state machine, only
the native event handler. -/
def ctrlOnInterruptionEnded (resumed : Bool) : SessionState → List SessionState
  | .Interrupted => if resumed then [.Resuming, .Playing] else [.Failed]
  | s => [s]

/-- Modelled from the spec: the fallback the controller applies when the
persisted selected track id does not resolve to an available registry
entry (section 3 invariant).  The repository sources only define
isSoundscapeAvailable; no caller of it is present, so the fallback is
modelled from the spec words: keep the id when its registry entry is
available, otherwise use the designated default id. -/
def resolveTrackId (id : String) : String :=
  match getSoundscapeById id with
  | some c => if c.available then id else DEFAULT_SOUNDSCAPE_ID
  | none => DEFAULT_SOUNDSCAPE_ID

/- ## Helper lemmas -/

/-- Helper: the clamp written max 0 (min 1 v) in the sources equals the
form min 1 (max 0 v). -/
theorem clampVolume_eq_min_max (v : ℚ) : clampVolume v = min 1 (max 0 v) := by
  unfold clampVolume
  rw [max_min_distrib_left, max_eq_right (by norm_num : (0 : ℚ) ≤ 1)]

/-- Helper: the spec-modelled resolver keeps an available id and otherwise
falls back to the default id. -/
theorem resolveTrackId_eq (id : String) :
    resolveTrackId id = if isSoundscapeAvailable id then id else DEFAULT_SOUNDSCAPE_ID := by
  unfold resolveTrackId isSoundscapeAvailable
  cases h : getSoundscapeById id with
  | none => simp
  | some c => cases hc : c.available <;> simp [hc]

/- ## Claims -/

/-- C1 counterexample: the claim states that play issues an Engine start
in every case other than cached Playing confirmed by the ground truth,
in particular whenever the cached state is not Playing.  At a call where
the cached flag is false but the native query reports playing, the code
issues no start at all: it only queries, re-syncs the cached flag and
returns. -/
theorem claim_C1_counterexample :
    (servicePlay true true true ⟨false, true⟩).calls = [EngineCall.query] ∧
    EngineCall.start ∉ (servicePlay true true true ⟨false, true⟩).calls ∧
    (⟨false, true⟩ : AudioSt).jsPlaying = false := by
  decide

/-- C1 amended: on iOS with the module available, play issues an Engine
start exactly when the ground-truth query returns false, regardless of
the cached state; when the query confirms playback, play only queries,
sets the cached flag to Playing and returns without a start. -/
theorem claim_C1_thm : ∀ (js native nativeOk : Bool),
    ((servicePlay true true nativeOk ⟨js, native⟩).calls.contains EngineCall.start) = !native ∧
    servicePlay true true nativeOk ⟨js, true⟩ = ⟨⟨true, true⟩, [EngineCall.query], false⟩ ∧
    EngineCall.start ∈ (servicePlay true true nativeOk ⟨js, false⟩).calls := by
  decide

/-- C2 counterexample: the claim states the Controller serializes its
public operations with a mutual-exclusion guard so the Engine never
observes two overlapping start calls.  There is no such guard: under the
interleaving in which both play invocations run their ground-truth query
before either issues its start, the Engine observes two start calls with
no stop between them. -/
theorem claim_C2_counterexample :
    (runSched [true, false, true, false] concInit).trace
      = [EngineCall.query, EngineCall.query, EngineCall.start, EngineCall.start] ∧
    ((runSched [true, false, true, false] concInit).trace.count EngineCall.start) = 2 ∧
    ((runSched [true, false, true, false] concInit).trace.count EngineCall.stop) = 0 := by
  decide

/-- C2 amended: the AudioService has no mutual-exclusion guard, so
interleaved play invocations can both issue Engine starts; only when the
two calls run serially (either order, each completing before the other
begins) does the ground-truth check reconcile the second call to a no-op,
so exactly one start is issued. -/
theorem claim_C2_thm : ∀ first : Bool,
    ((runSched [first, first, !first, !first] concInit).trace.count EngineCall.start) = 1 ∧
    ((runSched [first, first, !first, !first] concInit).trace.count EngineCall.stop) = 0 ∧
    (runSched [first, first, !first, !first] concInit).native = true := by
  decide

/-- C3: a health-check tick at which the cached state is Playing and the
native ground truth reports not playing clears the cached flag (the
Failed, not-playing state), and invokes the onHealthCheckFailed callback
exactly once. -/
theorem claim_C3_thm :
    healthCheckTick ⟨true, false⟩ = ⟨⟨false, false⟩, 1, [EngineCall.query]⟩ := by
  decide

/-- C4: a preserved-audio restart (stopSigner with keepAudio true followed
by a fresh start) issued while playing issues no Engine stop and no
Engine start anywhere in the sequence, and both the intermediate state
after the stop step and the final state still report playing. -/
theorem claim_C4_thm : ∀ (node nativeOk : Bool),
    EngineCall.stop ∉ (iglooRestart true true nativeOk ⟨node, ⟨true, true⟩⟩).2.2 ∧
    EngineCall.start ∉ (iglooRestart true true nativeOk ⟨node, ⟨true, true⟩⟩).2.2 ∧
    (iglooRestart true true nativeOk ⟨node, ⟨true, true⟩⟩).1.audio = ⟨true, true⟩ ∧
    (iglooRestart true true nativeOk ⟨node, ⟨true, true⟩⟩).2.1.audio = ⟨true, true⟩ := by
  decide

/-- C5 counterexample: the claim states that switching to an id absent
from the registry fails fast with AssetNotFound before any Engine call
and leaves the state unchanged.  The id thunder is absent from the
registry, yet the native setSoundscape called while stopped succeeds (no
error), performs no Engine call, and records thunder as the current
soundscape: the state changed and no AssetNotFound was returned. -/
theorem claim_C5_counterexample :
    getSoundscapeById "thunder" = none ∧
    nativeSetSoundscape "thunder" true ⟨"ocean-waves", false⟩
      = ⟨⟨"thunder", false⟩, [], none⟩ := by
  decide

/-- C5 amended: the native setSoundscape performs no registry validation.
While stopped it records any filename and returns success without
touching the platform player; while playing it first issues the player
stop, and a filename that does not resolve in the bundle fails only
afterwards, inside the restarted playback, with the file-not-found error
code 1 - after the stop has already been performed. -/
theorem claim_C5_thm : ∀ (f cur : String) (playOk : Bool),
    nativeSetSoundscape f playOk ⟨cur, false⟩ = ⟨⟨f, false⟩, [], none⟩ ∧
    (nativeSetSoundscape f playOk ⟨cur, true⟩).ops.head? = some NativeOp.playerStop ∧
    (nativeSetSoundscape "thunder" playOk ⟨cur, true⟩).err = some 1 ∧
    NativeOp.playerStop ∈ (nativeSetSoundscape "thunder" playOk ⟨cur, true⟩).ops := by
  intro f cur playOk
  refine ⟨rfl, rfl, ?_, ?_⟩
  · cases playOk <;> rfl
  · cases playOk <;> exact List.mem_cons_self _ _

/-- C6: setVolume stores and applies the clamped value min 1 (max 0 v):
the store updates the cached preference for every prior store state
(hence regardless of playback state) leaving the soundscape selection
untouched, the service applies the same clamped value to a live player,
and the concrete clamps of -0.5 and 1.7 are 0 and 1. -/
theorem claim_C6_thm : ∀ (v : ℚ) (s : AudioStoreState) (p : ℚ),
    (storeSetVolume s v).volume = min 1 (max 0 v) ∧
    (storeSetVolume s v).soundscapeId = s.soundscapeId ∧
    (serviceSetVolume true true v (some p)).1 = some (min 1 (max 0 v)) ∧
    clampVolume (-(1 : ℚ) / 2) = 0 ∧
    clampVolume ((17 : ℚ) / 10) = 1 := by
  intro v s p
  refine ⟨clampVolume_eq_min_max v, rfl, ?_, ?_, ?_⟩
  · simp [serviceSetVolume, nativeSetVolume, clampVolume_eq_min_max v]
  · norm_num [clampVolume]
  · norm_num [clampVolume]

/-- C7: on onInterruptionBegan followed by onInterruptionEnded with
resumed true while Playing, the controller state path is Playing,
Interrupted, Resuming, Playing; and in the native handler the resume
reactivates the session and re-invokes play on the existing handle:
no player is created, the playing flag stays set, and the emitted events
are exactly one interrupted event followed by one resumed event. -/
theorem claim_C7_thm :
    ([SessionState.Playing, ctrlOnInterruptionBegan .Playing]
        ++ ctrlOnInterruptionEnded true (ctrlOnInterruptionBegan .Playing))
      = [SessionState.Playing, .Interrupted, .Resuming, .Playing] ∧
    handleInterruptionBegan ⟨true, true⟩ = (⟨true, true⟩, [], [⟨false, "interrupted"⟩]) ∧
    handleInterruptionEnded true ⟨true, true⟩
      = (⟨true, true⟩, [NativeOp.sessionActivate, NativeOp.playerPlay], [⟨true, "resumed"⟩]) ∧
    NativeOp.playerCreate ∉ (handleInterruptionEnded true ⟨true, true⟩).2.1 := by
  decide

/-- C8: resolving the persisted selected id always yields an available
track (so playback is never configured with an unavailable one), and
whenever the persisted id is not available the resolution falls back to
the designated default id. -/
theorem claim_C8_thm : ∀ id : String,
    isSoundscapeAvailable (resolveTrackId id) = true ∧
    (isSoundscapeAvailable id = false → resolveTrackId id = DEFAULT_SOUNDSCAPE_ID) := by
  intro id
  constructor
  · rw [resolveTrackId_eq]
    cases hf : isSoundscapeAvailable id with
    | false =>
        show isSoundscapeAvailable DEFAULT_SOUNDSCAPE_ID = true
        decide
    | true => simp [hf]
  · intro hf
    rw [resolveTrackId_eq]
    simp [hf]

/-- Witness for C8 at the unavailable registry id rain. -/
theorem claim_C8_witness :
    isSoundscapeAvailable "rain" = false ∧
    resolveTrackId "rain" = DEFAULT_SOUNDSCAPE_ID ∧
    isSoundscapeAvailable (resolveTrackId "rain") = true := by
  exact ⟨by decide, (claim_C8_thm "rain").2 (by decide), (claim_C8_thm "rain").1⟩

/-- C9: the registry lookup returns no descriptor for an id matched by no
registry entry (the NotFound outcome, with no other failure mode), and
for every id present it returns exactly that entry. -/
theorem claim_C9_thm : ∀ id : String,
    ((∀ c ∈ SOUNDSCAPE_REGISTRY, c.id ≠ id) → getSoundscapeById id = none) ∧
    (∀ c ∈ SOUNDSCAPE_REGISTRY, getSoundscapeById c.id = some c) := by
  intro id
  constructor
  · intro h
    unfold getSoundscapeById
    rw [List.find?_eq_none]
    intro x hx
    simpa using h x hx
  · decide

/-- Witness for C9: the id thunder matches no entry and is not found, and
the entry for rain is returned by lookup at its own id. -/
theorem claim_C9_witness :
    getSoundscapeById "thunder" = none ∧
    getSoundscapeById "rain" = some ⟨"rain", "Rain", "Soft rainfall on leaves", "rain", false⟩ := by
  refine ⟨(claim_C9_thm "thunder").1 (by decide), ?_⟩
  exact (claim_C9_thm "thunder").2
    ⟨"rain", "Rain", "Soft rainfall on leaves", "rain", false⟩ (by decide)

/-- C10: off iOS, or whenever the native module reference is null, each
public AudioService operation (play, stop, setVolume) completes
successfully as a silent no-op: no native call is issued, no state
changes, and nothing is thrown. -/
theorem claim_C10_thm : ∀ (i m nativeOk : Bool) (st : AudioSt) (v : ℚ) (p : Option ℚ),
    servicePlay false m nativeOk st = ⟨st, [], false⟩ ∧
    servicePlay i false nativeOk st = ⟨st, [], false⟩ ∧
    serviceStop false m st = ⟨st, [], false⟩ ∧
    serviceStop i false st = ⟨st, [], false⟩ ∧
    serviceSetVolume false m v p = (p, []) ∧
    serviceSetVolume i false v p = (p, []) := by
  intro i m nativeOk st v p
  cases i <;> cases m <;>
    simp [servicePlay, serviceStop, serviceSetVolume]
